import Mathlib

/-!
Verification development for an options-trading decision engine
(snapshot store, indicator analyzers, signal generator, position tracker).

Numbers are modelled by exact rationals (ℚ); Python `int(x)` truncation and
`round(x, n)` banker's rounding are modelled explicitly.  Formatted message
strings are abstracted into inductive datatypes carrying their numeric
payloads; reason strings that callers compare against ("Stop Loss Hit",
"SL_UPDATED", ...) are kept as the literal strings from the source.
-/

/-- Python `int(x)`: truncation toward zero. -/
def pyInt (q : ℚ) : ℤ :=
  if 0 ≤ q then ⌊q⌋ else ⌈q⌉

/-- Python `round(x)` to an integer: round-half-to-even (banker's rounding). -/
def roundHalfEven (q : ℚ) : ℤ :=
  let f : ℤ := ⌊q⌋
  let r : ℚ := q - f
  if r < 1/2 then f
  else if 1/2 < r then f + 1
  else if f % 2 = 0 then f else f + 1

/-- Python `round(x, 1)`. -/
def pyRound1 (q : ℚ) : ℚ := (roundHalfEven (q * 10) : ℚ) / 10

/-- Python `round(x, 2)`. -/
def pyRound2 (q : ℚ) : ℚ := (roundHalfEven (q * 100) : ℚ) / 100

/-- Python list slice `xs[-n:]` (last `n` elements, whole list when shorter). -/
def pyLastN (n : ℕ) (xs : List ℚ) : List ℚ := xs.drop (xs.length - n)

/- ==================== config.py ==================== -/

def MEMORY_TTL_SECONDS : ℚ := 86400

def OI_THRESHOLD_STRONG : ℚ := 5.0
def OI_THRESHOLD_MEDIUM : ℚ := 2.5
def ATM_OI_THRESHOLD : ℚ := 3.0
def OI_5M_THRESHOLD : ℚ := 2.0

def MIN_OI_5M_FOR_ENTRY : ℚ := 2.0
def MIN_OI_15M_FOR_ENTRY : ℚ := 2.5
def STRONG_OI_5M_THRESHOLD : ℚ := 3.5
def STRONG_OI_15M_THRESHOLD : ℚ := 5.0

def VOL_SPIKE_MULTIPLIER : ℚ := 1.8
def VOL_SPIKE_STRONG : ℚ := 3.0

def PCR_BULLISH : ℚ := 1.2
def PCR_BEARISH : ℚ := 0.8

def ATR_TARGET_MULTIPLIER : ℚ := 2.5
def ATR_SL_MULTIPLIER : ℚ := 1.5
def ATR_SL_GAMMA_MULTIPLIER : ℚ := 2.0

def VWAP_BUFFER : ℚ := 10
def VWAP_DISTANCE_MAX_ATR_MULTIPLE : ℚ := 3.0
def VWAP_STRICT_MODE : Bool := true

def MIN_CANDLE_SIZE : ℚ := 5

def EXIT_OI_REVERSAL_THRESHOLD : ℚ := 3.0
def EXIT_OI_CONFIRMATION_CANDLES : ℕ := 2
def EXIT_OI_SPIKE_THRESHOLD : ℚ := 8.0

def EXIT_VOLUME_DRY_THRESHOLD : ℚ := 0.5
def EXIT_PREMIUM_DROP_PERCENT : ℚ := 15

def MIN_HOLD_TIME_MINUTES : ℚ := 10
def MIN_HOLD_BEFORE_OI_EXIT : ℚ := 8

def USE_PREMIUM_SL : Bool := true
def PREMIUM_SL_PERCENT : ℚ := 30

def ENABLE_TRAILING_SL : Bool := true
def TRAILING_SL_DISTANCE : ℚ := 0.4
def TRAILING_SL_UPDATE_THRESHOLD : ℚ := 5

def MIN_PRIMARY_CHECKS : ℕ := 2
def MIN_CONFIDENCE : ℤ := 70

/- ==================== analyzers.py : OIAnalyzer ==================== -/

namespace OIAnalyzer

/-- `OIAnalyzer.calculate_pcr(total_pe, total_ce)`. -/
def calculate_pcr (total_pe total_ce : ℚ) : ℚ :=
  if total_ce = 0 then
    if total_pe = 0 then 1.0
    else 10.0
  else
    pyRound2 (min (total_pe / total_ce) 10.0)

/-- Result dict of `OIAnalyzer.detect_unwinding`. -/
structure UnwindingResult where
  ce_unwinding : Bool
  pe_unwinding : Bool
  ce_strength : String
  pe_strength : String
  multi_timeframe : Bool
deriving DecidableEq

/-- `OIAnalyzer.detect_unwinding(ce_5m, ce_15m, pe_5m, pe_15m)`. -/
def detect_unwinding (ce_5m ce_15m pe_5m pe_15m : ℚ) : UnwindingResult :=
  let ce_unwinding := ce_15m < -MIN_OI_15M_FOR_ENTRY ∧ ce_5m < -MIN_OI_5M_FOR_ENTRY
  let ce_strength :=
    if ce_15m < -STRONG_OI_15M_THRESHOLD ∧ ce_5m < -STRONG_OI_5M_THRESHOLD then "strong"
    else if ce_15m < -MIN_OI_15M_FOR_ENTRY ∧ ce_5m < -MIN_OI_5M_FOR_ENTRY then "medium"
    else "weak"
  let pe_unwinding := pe_15m < -MIN_OI_15M_FOR_ENTRY ∧ pe_5m < -MIN_OI_5M_FOR_ENTRY
  let pe_strength :=
    if pe_15m < -STRONG_OI_15M_THRESHOLD ∧ pe_5m < -STRONG_OI_5M_THRESHOLD then "strong"
    else if pe_15m < -MIN_OI_15M_FOR_ENTRY ∧ pe_5m < -MIN_OI_5M_FOR_ENTRY then "medium"
    else "weak"
  let multi_tf := (ce_5m < -2.0 ∧ ce_15m < -3.0) ∨ (pe_5m < -2.0 ∧ pe_15m < -3.0)
  { ce_unwinding := decide ce_unwinding
    pe_unwinding := decide pe_unwinding
    ce_strength := ce_strength
    pe_strength := pe_strength
    multi_timeframe := decide multi_tf }

/-- Messages produced by `check_oi_reversal`, with formatted-string payloads
kept as structured data instead of rendered text. -/
inductive ReversalMsg where
  | insufficientData : ReversalMsg
  | sustainedBuilding (signal_type : String) (buildingCount totalCount : ℕ) : ReversalMsg
  | spike (signal_type : String) (current : ℚ) : ReversalMsg
  | notSustained (signal_type : String) (current : ℚ) : ReversalMsg
deriving DecidableEq

/-- `OIAnalyzer.check_oi_reversal(signal_type, oi_changes_history, threshold)`.
Returns `(is_reversal, strength, avg-or-current, message)`. -/
def check_oi_reversal (signal_type : String) (oi_changes_history : List ℚ)
    (threshold : ℚ) : Bool × String × ℚ × ReversalMsg :=
  if oi_changes_history.length < EXIT_OI_CONFIRMATION_CANDLES then
    (false, "none", 0.0, ReversalMsg.insufficientData)
  else
    let recent := pyLastN EXIT_OI_CONFIRMATION_CANDLES oi_changes_history
    let current := recent.getLastD 0
    let building_count := (recent.filter (fun oi => threshold < oi)).length
    if EXIT_OI_CONFIRMATION_CANDLES ≤ building_count then
      let avg_building := recent.sum / (recent.length : ℚ)
      let strength := if 5.0 < avg_building then "strong" else "medium"
      (true, strength, avg_building,
        ReversalMsg.sustainedBuilding signal_type building_count recent.length)
    else if EXIT_OI_SPIKE_THRESHOLD < current then
      (true, "spike", current, ReversalMsg.spike signal_type current)
    else
      (false, "none", current, ReversalMsg.notSustained signal_type current)

end OIAnalyzer

/- ==================== analyzers.py : TechnicalAnalyzer ==================== -/

namespace TechnicalAnalyzer

/-- Reason strings of `validate_signal_with_vwap`, abstracted with payloads. -/
inductive VwapReason where
  | missingData : VwapReason
  | belowTooFar (d : ℚ) : VwapReason
  | aboveOverextended (d : ℚ) : VwapReason
  | aboveTooFar (d : ℚ) : VwapReason
  | belowOverextended (d : ℚ) : VwapReason
  | distanceOk (d : ℚ) : VwapReason
  | unknownSignalType : VwapReason
deriving DecidableEq

/-- `TechnicalAnalyzer.validate_signal_with_vwap(signal_type, spot, vwap, atr)`.
Python falsiness of a float argument is zero-ness here. -/
def validate_signal_with_vwap (signal_type : String) (spot vwap atr : ℚ) :
    Bool × VwapReason × ℤ :=
  if vwap = 0 ∨ spot = 0 ∨ atr = 0 then
    (false, VwapReason.missingData, 0)
  else
    let distance := spot - vwap
    let buffer := if VWAP_STRICT_MODE then atr * VWAP_DISTANCE_MAX_ATR_MULTIPLE else VWAP_BUFFER
    if signal_type = "CE_BUY" then
      if distance < -buffer then
        (false, VwapReason.belowTooFar distance, 0)
      else if buffer * 3 < distance then
        (false, VwapReason.aboveOverextended distance, 0)
      else
        let score : ℚ :=
          if 0 < distance then min 100 (80 + (distance / buffer * 20))
          else max 60 (80 - (|distance| / buffer * 20))
        (true, VwapReason.distanceOk distance, pyInt score)
    else if signal_type = "PE_BUY" then
      if buffer < distance then
        (false, VwapReason.aboveTooFar distance, 0)
      else if distance < -(buffer * 3) then
        (false, VwapReason.belowOverextended distance, 0)
      else
        let score : ℚ :=
          if distance < 0 then min 100 (80 + (|distance| / buffer * 20))
          else max 60 (80 - (distance / buffer * 20))
        (true, VwapReason.distanceOk distance, pyInt score)
    else
      (false, VwapReason.unknownSignalType, 0)

end TechnicalAnalyzer

/- ==================== signal_engine.py ==================== -/

inductive SignalType where
  | CE_BUY : SignalType
  | PE_BUY : SignalType
deriving DecidableEq

/-- The `primary` sub-dict of `analysis_details` (key `ce_unwinding` or
`pe_unwinding` depending on direction is modelled as `unwinding`). -/
structure PrimaryDetails where
  unwinding : Bool
  atm_unwinding : Bool
  volume : Bool
deriving DecidableEq

/-- `analysis_details` dict attached to a Signal. -/
structure AnalysisDetails where
  primary : PrimaryDetails
  vwap_reason : TechnicalAnalyzer.VwapReason
  bonus_count : ℕ
deriving DecidableEq

/-- `signal_engine.Signal` dataclass.  `timestamp` (wall clock at creation) is
threaded in as the `now` parameter of the generator. -/
structure Signal where
  signal_type : SignalType
  timestamp : ℚ
  entry_price : ℚ
  target_price : ℚ
  stop_loss : ℚ
  atm_strike : ℚ
  recommended_strike : ℚ
  option_premium : ℚ
  premium_sl : ℚ
  vwap : ℚ
  vwap_distance : ℚ
  vwap_score : ℤ
  atr : ℚ
  oi_5m : ℚ
  oi_15m : ℚ
  oi_strength : String
  atm_ce_change : ℚ
  atm_pe_change : ℚ
  pcr : ℚ
  volume_spike : Bool
  volRat : ℚ
  order_flow : ℚ
  confidence : ℤ
  primary_checks : ℕ
  bonus_checks : ℕ
  trailing_sl_enabled : Bool
  is_expiry_day : Bool
  analysis_details : AnalysisDetails
deriving DecidableEq

/-- `atm_data` dict entry: fields are optional to model `dict.get` defaults
(`ce_ltp` defaults to 150.0 in the generator and to 0 in the tracker). -/
structure AtmData where
  ce_ltp : Option ℚ
  pe_ltp : Option ℚ
deriving DecidableEq

/-- `candle_data` dict as consumed via `.get` by the generator and tracker. -/
structure CandleData where
  color : Option String
  size : Option ℚ
  rejection : Bool
  rejection_type : Option String
deriving DecidableEq

/-- `momentum` dict as consumed via `.get` by the generator. -/
structure MomentumData where
  consecutive_green : ℕ
  consecutive_red : ℕ
deriving DecidableEq

/-- The keyword arguments passed to `SignalGenerator._check_ce_buy` /
`_check_pe_buy` (field `volRat` models `volume_ratio`). -/
structure GenInputs where
  spot_price : ℚ
  futures_price : ℚ
  vwap : ℚ
  vwap_distance : ℚ
  pcr : ℚ
  atr : ℚ
  atm_strike : ℚ
  atm_data : AtmData
  ce_total_5m : ℚ
  pe_total_5m : ℚ
  ce_total_15m : ℚ
  pe_total_15m : ℚ
  atm_ce_5m : ℚ
  atm_pe_5m : ℚ
  atm_ce_15m : ℚ
  atm_pe_15m : ℚ
  has_5m_total : Bool
  has_15m_total : Bool
  has_5m_atm : Bool
  has_15m_atm : Bool
  volume_spike : Bool
  volRat : ℚ
  order_flow : ℚ
  candle_data : CandleData
  gamma_zone : Bool
  momentum : MomentumData
  multi_tf : Bool
  oi_strength : String
deriving DecidableEq

def boolNat (b : Bool) : ℕ := if b then 1 else 0

namespace SignalGenerator

/-- `SignalGenerator._check_ce_buy` (pure part: `self.last_signal_*`
bookkeeping carries no information used elsewhere and is omitted).
`now` stands for `datetime.now(IST)` at signal creation. -/
def check_ce_buy (now : ℚ) (i : GenInputs) : Option Signal :=
  let v := TechnicalAnalyzer.validate_signal_with_vwap "CE_BUY" i.futures_price i.vwap i.atr
  let vwap_valid := v.1
  let vwap_reason := v.2.1
  let vwap_score := v.2.2
  if !vwap_valid then none
  else
    let primary_ce := decide (i.ce_total_15m < -MIN_OI_15M_FOR_ENTRY ∧
      i.ce_total_5m < -MIN_OI_5M_FOR_ENTRY) && i.has_15m_total && i.has_5m_total
    let primary_atm :=
      if i.has_15m_atm && decide (i.atm_ce_15m < -ATM_OI_THRESHOLD) then true
      else if !i.has_15m_atm then true
      else false
    let primary_vol := i.volume_spike
    let primary_passed := boolNat primary_ce + boolNat primary_atm + boolNat primary_vol
    if primary_passed < MIN_PRIMARY_CHECKS then none
    else
      let secondary_price := decide (i.vwap < i.futures_price)
      let secondary_green := i.candle_data.color = some "GREEN"
      let bonus_5m_strong := decide (i.ce_total_5m < -STRONG_OI_5M_THRESHOLD) && i.has_5m_total
      let bonus_candle := decide (MIN_CANDLE_SIZE ≤ (i.candle_data.size).getD 0)
      let bonus_vwap_above := decide (0 < i.vwap_distance)
      let bonus_pcr := decide (PCR_BULLISH < i.pcr)
      let bonus_momentum := decide (2 ≤ i.momentum.consecutive_green)
      let bonus_flow := decide (i.order_flow < 1.0)
      let bonus_vol_strong := decide (VOL_SPIKE_STRONG ≤ i.volRat)
      let bonus_passed := boolNat bonus_5m_strong + boolNat bonus_candle +
        boolNat bonus_vwap_above + boolNat bonus_pcr + boolNat bonus_momentum +
        boolNat bonus_flow + boolNat i.multi_tf + boolNat i.gamma_zone +
        boolNat bonus_vol_strong
      let confidence : ℤ := 40 +
        (if primary_ce then (if i.oi_strength = "strong" then 25 else 20) else 0) +
        (if primary_atm then 20 else 0) +
        (if primary_vol then 15 else 0) +
        pyInt ((vwap_score : ℚ) / 5) +
        (if decide secondary_green then 5 else 0) +
        (if secondary_price then 5 else 0) +
        min ((bonus_passed : ℤ) * 2) 15
      let confidence := min confidence 98
      if confidence < MIN_CONFIDENCE then none
      else
        let sl_mult := if i.gamma_zone then ATR_SL_GAMMA_MULTIPLIER else ATR_SL_MULTIPLIER
        let entry := i.futures_price
        let target := entry + (pyInt (i.atr * ATR_TARGET_MULTIPLIER) : ℚ)
        let sl := entry - (pyInt (i.atr * sl_mult) : ℚ)
        let premium := (i.atm_data.ce_ltp).getD 150.0
        let premium_sl := if USE_PREMIUM_SL then premium * (1 - PREMIUM_SL_PERCENT / 100) else 0
        some
          { signal_type := SignalType.CE_BUY
            timestamp := now
            entry_price := entry
            target_price := target
            stop_loss := sl
            atm_strike := i.atm_strike
            recommended_strike := i.atm_strike
            option_premium := premium
            premium_sl := premium_sl
            vwap := i.vwap
            vwap_distance := i.vwap_distance
            vwap_score := vwap_score
            atr := i.atr
            oi_5m := i.ce_total_5m
            oi_15m := i.ce_total_15m
            oi_strength := i.oi_strength
            atm_ce_change := i.atm_ce_15m
            atm_pe_change := i.atm_pe_15m
            pcr := i.pcr
            volume_spike := i.volume_spike
            volRat := i.volRat
            order_flow := i.order_flow
            confidence := confidence
            primary_checks := primary_passed
            bonus_checks := bonus_passed
            trailing_sl_enabled := ENABLE_TRAILING_SL
            is_expiry_day := i.gamma_zone
            analysis_details :=
              { primary :=
                  { unwinding := primary_ce
                    atm_unwinding := primary_atm
                    volume := primary_vol }
                vwap_reason := vwap_reason
                bonus_count := bonus_passed } }

/-- `SignalGenerator._check_pe_buy` (pure part). -/
def check_pe_buy (now : ℚ) (i : GenInputs) : Option Signal :=
  let v := TechnicalAnalyzer.validate_signal_with_vwap "PE_BUY" i.futures_price i.vwap i.atr
  let vwap_valid := v.1
  let vwap_reason := v.2.1
  let vwap_score := v.2.2
  if !vwap_valid then none
  else
    let primary_pe := decide (i.pe_total_15m < -MIN_OI_15M_FOR_ENTRY ∧
      i.pe_total_5m < -MIN_OI_5M_FOR_ENTRY) && i.has_15m_total && i.has_5m_total
    let primary_atm :=
      if i.has_15m_atm && decide (i.atm_pe_15m < -ATM_OI_THRESHOLD) then true
      else if !i.has_15m_atm then true
      else false
    let primary_vol := i.volume_spike
    let primary_passed := boolNat primary_pe + boolNat primary_atm + boolNat primary_vol
    if primary_passed < MIN_PRIMARY_CHECKS then none
    else
      let secondary_price := decide (i.futures_price < i.vwap)
      let secondary_red := i.candle_data.color = some "RED"
      let bonus_5m_strong := decide (i.pe_total_5m < -STRONG_OI_5M_THRESHOLD) && i.has_5m_total
      let bonus_candle := decide (MIN_CANDLE_SIZE ≤ (i.candle_data.size).getD 0)
      let bonus_vwap_below := decide (i.vwap_distance < 0)
      let bonus_pcr := decide (i.pcr < PCR_BEARISH)
      let bonus_momentum := decide (2 ≤ i.momentum.consecutive_red)
      let bonus_flow := decide (1.5 < i.order_flow)
      let bonus_vol_strong := decide (VOL_SPIKE_STRONG ≤ i.volRat)
      let bonus_passed := boolNat bonus_5m_strong + boolNat bonus_candle +
        boolNat bonus_vwap_below + boolNat bonus_pcr + boolNat bonus_momentum +
        boolNat bonus_flow + boolNat i.multi_tf + boolNat i.gamma_zone +
        boolNat bonus_vol_strong
      let confidence : ℤ := 40 +
        (if primary_pe then (if i.oi_strength = "strong" then 25 else 20) else 0) +
        (if primary_atm then 20 else 0) +
        (if primary_vol then 15 else 0) +
        pyInt ((vwap_score : ℚ) / 5) +
        (if decide secondary_red then 5 else 0) +
        (if secondary_price then 5 else 0) +
        min ((bonus_passed : ℤ) * 2) 15
      let confidence := min confidence 98
      if confidence < MIN_CONFIDENCE then none
      else
        let sl_mult := if i.gamma_zone then ATR_SL_GAMMA_MULTIPLIER else ATR_SL_MULTIPLIER
        let entry := i.futures_price
        let target := entry - (pyInt (i.atr * ATR_TARGET_MULTIPLIER) : ℚ)
        let sl := entry + (pyInt (i.atr * sl_mult) : ℚ)
        let premium := (i.atm_data.pe_ltp).getD 150.0
        let premium_sl := if USE_PREMIUM_SL then premium * (1 - PREMIUM_SL_PERCENT / 100) else 0
        some
          { signal_type := SignalType.PE_BUY
            timestamp := now
            entry_price := entry
            target_price := target
            stop_loss := sl
            atm_strike := i.atm_strike
            recommended_strike := i.atm_strike
            option_premium := premium
            premium_sl := premium_sl
            vwap := i.vwap
            vwap_distance := i.vwap_distance
            vwap_score := vwap_score
            atr := i.atr
            oi_5m := i.pe_total_5m
            oi_15m := i.pe_total_15m
            oi_strength := i.oi_strength
            atm_ce_change := i.atm_ce_15m
            atm_pe_change := i.atm_pe_15m
            pcr := i.pcr
            volume_spike := i.volume_spike
            volRat := i.volRat
            order_flow := i.order_flow
            confidence := confidence
            primary_checks := primary_passed
            bonus_checks := bonus_passed
            trailing_sl_enabled := ENABLE_TRAILING_SL
            is_expiry_day := i.gamma_zone
            analysis_details :=
              { primary :=
                  { unwinding := primary_pe
                    atm_unwinding := primary_atm
                    volume := primary_vol }
                vwap_reason := vwap_reason
                bonus_count := bonus_passed } }

/-- `SignalGenerator.generate`: try CE_BUY, else PE_BUY. -/
def generate (now : ℚ) (i : GenInputs) : Option Signal :=
  match check_ce_buy now i with
  | some s => some s
  | none => check_pe_buy now i

end SignalGenerator

/- ==================== data_manager.py : RedisBrain (RAM path) ====================

The store is modelled in RAM mode (`self.client = None`): Redis and RAM code
paths are written to behave identically, and the core must treat both
identically.  The single Python dict `self.memory`, whose string keys are
`nifty:total:<YYYYMMDD_HHMM>` and `nifty:strike:<strike>:<YYYYMMDD_HHMM>`,
is modelled as an association list over a structured key type; the minute
component of a key is the absolute minute index (timestamp truncated to the
minute).  Wall-clock time is carried as `nowSec : ℚ` (epoch seconds, IST). -/

/-- Structured form of the dict keys `nifty:total:...` / `nifty:strike:...`. -/
inductive BrainKey where
  | total (minute : ℤ) : BrainKey
  | strike (strikePrice : ℤ) (minute : ℤ) : BrainKey
deriving DecidableEq

/-- Parsed form of the JSON value stored for an aggregate snapshot. -/
structure TotalSnap where
  ce : ℚ
  pe : ℚ
  timestampMinute : ℤ
deriving DecidableEq

/-- Parsed form of the JSON value stored for a per-strike snapshot. -/
structure StrikeSnap where
  ce_oi : ℚ
  pe_oi : ℚ
  timestampMinute : ℤ
deriving DecidableEq

/-- Values stored in the shared dict. -/
inductive BrainVal where
  | total (s : TotalSnap) : BrainVal
  | strike (s : StrikeSnap) : BrainVal
deriving DecidableEq

/-- `RedisBrain` in-RAM state: `memory` and the parallel
`memory_timestamps` dict (key ↦ insertion wall-clock seconds). -/
structure Brain where
  memory : List (BrainKey × BrainVal)
  memoryTs : List (BrainKey × ℚ)
  snapshot_count : ℕ
  first_snapshot_time : Option ℤ
deriving DecidableEq

namespace Brain

/-- Python dict lookup `d.get(key)` on an association list. -/
def findKey (mem : List (BrainKey × BrainVal)) (k : BrainKey) : Option BrainVal :=
  (mem.find? (fun p => p.1 = k)).map Prod.snd

/-- Python dict assignment `d[key] = v`: overwrite, keeping one entry per key. -/
def insertKey (mem : List (BrainKey × BrainVal)) (k : BrainKey) (v : BrainVal) :
    List (BrainKey × BrainVal) :=
  (k, v) :: mem.filter (fun p => ¬ p.1 = k)

/-- Dict assignment on the timestamps map. -/
def insertTs (ts : List (BrainKey × ℚ)) (k : BrainKey) (t : ℚ) : List (BrainKey × ℚ) :=
  (k, t) :: ts.filter (fun p => ¬ p.1 = k)

/-- `RedisBrain._cleanup`: purge RAM entries older than the TTL. -/
def cleanup (st : Brain) (nowSec : ℚ) : Brain :=
  let expired := ((st.memoryTs.filter (fun p => MEMORY_TTL_SECONDS < nowSec - p.2)).map Prod.fst)
  { st with
    memory := st.memory.filter (fun p => ¬ p.1 ∈ expired)
    memoryTs := st.memoryTs.filter (fun p => ¬ p.1 ∈ expired) }

/-- `RedisBrain.save_total_oi(ce, pe)` at wall-clock `nowSec`. -/
def save_total_oi (st : Brain) (nowSec : ℚ) (ce pe : ℚ) : Brain :=
  let minute : ℤ := ⌊nowSec / 60⌋
  let key := BrainKey.total minute
  let value := BrainVal.total { ce := ce, pe := pe, timestampMinute := minute }
  let st :=
    if st.snapshot_count = 0 then { st with first_snapshot_time := some minute } else st
  let st := { st with
    memory := insertKey st.memory key value
    memoryTs := insertTs st.memoryTs key nowSec
    snapshot_count := st.snapshot_count + 1 }
  cleanup st nowSec

/-- `RedisBrain.save_strike(strike, data)` at wall-clock `nowSec`
(no cleanup call in the source). -/
def save_strike (st : Brain) (nowSec : ℚ) (strikePrice : ℤ) (ce_oi pe_oi : ℚ) : Brain :=
  let minute : ℤ := ⌊nowSec / 60⌋
  let key := BrainKey.strike strikePrice minute
  let value := BrainVal.strike { ce_oi := ce_oi, pe_oi := pe_oi, timestampMinute := minute }
  { st with
    memory := insertKey st.memory key value
    memoryTs := insertTs st.memoryTs key nowSec }

/-- The `ce` component a total-change lookup reads from a found value:
`json.loads(past_str).get('ce', 0)` (a per-strike JSON blob has no `ce`
key, so the dict-get default 0 applies). -/
def valCe : BrainVal → ℚ
  | BrainVal.total s => s.ce
  | BrainVal.strike _ => 0

def valPe : BrainVal → ℚ
  | BrainVal.total s => s.pe
  | BrainVal.strike _ => 0

def valCeOi : BrainVal → ℚ
  | BrainVal.strike s => s.ce_oi
  | BrainVal.total _ => 0

def valPeOi : BrainVal → ℚ
  | BrainVal.strike s => s.pe_oi
  | BrainVal.total _ => 0

/-- The past-snapshot lookup of `get_total_oi_change`: exact key first, then
the jitter-tolerance loop over offsets `[-1, 1, -2, 2]` (first hit wins). -/
def total_past (st : Brain) (nowSec : ℚ) (minutes_ago : ℤ) : Option BrainVal :=
  let target : ℤ := ⌊nowSec / 60⌋ - minutes_ago
  match findKey st.memory (BrainKey.total target) with
  | some v => some v
  | none =>
      [(-1 : ℤ), 1, -2, 2].findSome? (fun offset =>
        findKey st.memory (BrainKey.total (target + offset)))

/-- `RedisBrain.get_total_oi_change(current_ce, current_pe, minutes_ago)` at
wall-clock `nowSec`. -/
def get_total_oi_change (st : Brain) (nowSec : ℚ) (current_ce current_pe : ℚ)
    (minutes_ago : ℤ) : ℚ × ℚ × Bool :=
  match total_past st nowSec minutes_ago with
  | none => (0.0, 0.0, false)
  | some past =>
      let past_ce := valCe past
      let past_pe := valPe past
      let ce_chg := if past_ce = 0 then (if 0 < current_ce then 100.0 else 0.0)
        else ((current_ce - past_ce) / past_ce * 100)
      let pe_chg := if past_pe = 0 then (if 0 < current_pe then 100.0 else 0.0)
        else ((current_pe - past_pe) / past_pe * 100)
      (pyRound1 ce_chg, pyRound1 pe_chg, true)

/-- The past-snapshot lookup of `get_strike_oi_change`: exact key first, then
the jitter-tolerance loop over offsets `[-1, 1, -2, 2]` (first hit wins). -/
def strike_past (st : Brain) (nowSec : ℚ) (strikePrice : ℤ) (minutes_ago : ℤ) :
    Option BrainVal :=
  let target : ℤ := ⌊nowSec / 60⌋ - minutes_ago
  match findKey st.memory (BrainKey.strike strikePrice target) with
  | some v => some v
  | none =>
      [(-1 : ℤ), 1, -2, 2].findSome? (fun offset =>
        findKey st.memory (BrainKey.strike strikePrice (target + offset)))

/-- `RedisBrain.get_strike_oi_change(strike, current_data, minutes_ago)` at
wall-clock `nowSec`; `current_data` is passed as its `ce_oi`/`pe_oi` fields. -/
def get_strike_oi_change (st : Brain) (nowSec : ℚ) (strikePrice : ℤ)
    (curr_ce_oi curr_pe_oi : ℚ) (minutes_ago : ℤ) : ℚ × ℚ × Bool :=
  match strike_past st nowSec strikePrice minutes_ago with
  | none => (0.0, 0.0, false)
  | some past =>
      let ce_past := valCeOi past
      let pe_past := valPeOi past
      let ce_chg := if ce_past = 0 then (if 0 < curr_ce_oi then 100.0 else 0.0)
        else ((curr_ce_oi - ce_past) / ce_past * 100)
      let pe_chg := if pe_past = 0 then (if 0 < curr_pe_oi then 100.0 else 0.0)
        else ((curr_pe_oi - pe_past) / pe_past * 100)
      (pyRound1 ce_chg, pyRound1 pe_chg, true)

end Brain

/- ==================== position_tracker.py ==================== -/

/-- `position_tracker.Position` dataclass. -/
structure Position where
  signal : Signal
  entry_time : ℚ
  entry_premium : ℚ
  highest_premium : ℚ
  trailing_sl : ℚ
  is_active : Bool
  exit_time : Option ℚ
  exit_reason : Option String
  exit_premium : Option ℚ
  oi_history : List ℚ
deriving DecidableEq

/-- The `current_data` dict handed to `check_exit_conditions`
(field `volRat` models the `volume_ratio` entry; optional fields
model `dict.get` defaults). -/
structure CurrentData where
  futures_price : ℚ
  ce_oi_5m : Option ℚ
  pe_oi_5m : Option ℚ
  volRat : Option ℚ
  candle_data : CandleData
  atm_data : AtmData
deriving DecidableEq

/-- Formatted `details` strings of exit results, as structured payloads. -/
inductive ExitDetail where
  | slUpdated (peak newSl : ℚ) : ExitDetail
  | stopLoss (price sl : ℚ) : ExitDetail
  | targetHit (price target : ℚ) : ExitDetail
  | marketClosing : ExitDetail
  | oiReversal (msg : OIAnalyzer.ReversalMsg) (avg : ℚ) : ExitDetail
  | trailingSlHit (profit profitPct : ℚ) : ExitDetail
  | premiumDrop (dropPct peak : ℚ) : ExitDetail
  | volumeDried (r : ℚ) : ExitDetail
  | candleRejection (kind : String) : ExitDetail
deriving DecidableEq

namespace PositionTracker

/-- `PositionTracker._estimate_premium(current_data, signal)`.
`current_data.get('futures_price', signal.entry_price)` always finds the
key (the driving loop builds the dict with it). -/
def estimate_premium (data : CurrentData) (signal : Signal) : ℚ :=
  let actual_premium := match signal.signal_type with
    | SignalType.CE_BUY => (data.atm_data.ce_ltp).getD 0
    | SignalType.PE_BUY => (data.atm_data.pe_ltp).getD 0
  if 0 < actual_premium then actual_premium
  else
    let futures_price := data.futures_price
    let spot_move := futures_price - signal.entry_price
    let strike_diff := |futures_price - signal.atm_strike|
    let itmSide := (signal.signal_type = SignalType.CE_BUY ∧ signal.atm_strike < futures_price) ∨
      (signal.signal_type = SignalType.PE_BUY ∧ futures_price < signal.atm_strike)
    let delta : ℚ :=
      if strike_diff < 25 then 0.5
      else if strike_diff < 50 then (if itmSide then 0.6 else 0.4)
      else (if itmSide then 0.7 else 0.3)
    let spot_move := if signal.signal_type = SignalType.PE_BUY then -spot_move else spot_move
    let premium_change := spot_move * delta
    let estimated_premium := signal.option_premium + premium_change
    max estimated_premium 5.0

/-- EXIT 1 condition: stop-loss breach, directional comparison. -/
def stop_loss_hit (signal : Signal) (data : CurrentData) : Bool :=
  match signal.signal_type with
  | SignalType.CE_BUY => decide (data.futures_price ≤ signal.stop_loss)
  | SignalType.PE_BUY => decide (signal.stop_loss ≤ data.futures_price)

/-- EXIT 2 condition: target breach, directional comparison. -/
def target_hit (signal : Signal) (data : CurrentData) : Bool :=
  match signal.signal_type with
  | SignalType.CE_BUY => decide (signal.target_price ≤ data.futures_price)
  | SignalType.PE_BUY => decide (data.futures_price ≤ signal.target_price)

/-- The trailing-SL notification condition of the peak-update block:
new premium high-water mark, trailing enabled, and a stop move of at
least `TRAILING_SL_UPDATE_THRESHOLD` percent. -/
def sl_update_fires (pos : Position) (data : CurrentData) : Bool :=
  let current_premium := estimate_premium data pos.signal
  decide (pos.highest_premium < current_premium) && ENABLE_TRAILING_SL &&
    (let old_sl := pos.trailing_sl
     let new_sl := current_premium * (1 - TRAILING_SL_DISTANCE)
     let sl_move_pct := if 0 < old_sl then |new_sl - old_sl| / old_sl * 100 else 0
     decide (TRAILING_SL_UPDATE_THRESHOLD ≤ sl_move_pct))

/-- The current OI sample EXIT 4 appends for the position's direction. -/
def oi_sample (signal : Signal) (data : CurrentData) : ℚ :=
  match signal.signal_type with
  | SignalType.CE_BUY => (data.ce_oi_5m).getD 0
  | SignalType.PE_BUY => (data.pe_oi_5m).getD 0

/-- The (at most 5-candle) OI history after EXIT 4 appends this cycle's sample. -/
def oi_hist_after (pos : Position) (data : CurrentData) : List ℚ :=
  pyLastN 5 (pos.oi_history ++ [oi_sample pos.signal data])

/-- The sustained-OI-reversal condition EXIT 4 tests (on the appended history). -/
def oi_reversal_cond (pos : Position) (data : CurrentData) : Bool :=
  (OIAnalyzer.check_oi_reversal
    (if pos.signal.signal_type = SignalType.CE_BUY then "CE" else "PE")
    (oi_hist_after pos data) EXIT_OI_REVERSAL_THRESHOLD).1

/-- `PositionTracker.check_exit_conditions(current_data)` for the active
position `pos`; `nowSec` is `datetime.now(IST)` in epoch seconds and
`todMin` its time-of-day in minutes (the EXIT 3 cutoff `time(15,15)` is
minute 915).  Returns the mutated position and the optional
`(should_exit, reason, details)` triple. -/
def check_exit_conditions (pos : Position) (data : CurrentData) (nowSec todMin : ℚ) :
    Position × Option (Bool × String × ExitDetail) :=
  if ¬ pos.is_active then (pos, none)
  else
    let signal := pos.signal
    let hold_time := (nowSec - pos.entry_time) / 60
    let current_premium := estimate_premium data signal
    let peakStep : Position × Option (Bool × String × ExitDetail) :=
      if pos.highest_premium < current_premium then
        let old_sl := pos.trailing_sl
        let pos1 := { pos with highest_premium := current_premium }
        if ENABLE_TRAILING_SL then
          let new_sl := current_premium * (1 - TRAILING_SL_DISTANCE)
          let sl_move_pct := if 0 < old_sl then |new_sl - old_sl| / old_sl * 100 else 0
          let pos2 := { pos1 with trailing_sl := new_sl }
          if TRAILING_SL_UPDATE_THRESHOLD ≤ sl_move_pct then
            (pos2, some (false, "SL_UPDATED", ExitDetail.slUpdated current_premium new_sl))
          else (pos2, none)
        else (pos1, none)
      else (pos, none)
    match peakStep with
    | (posU, some r) => (posU, some r)
    | (pos, none) =>
      if stop_loss_hit signal data then
        (pos, some (true, "Stop Loss Hit", ExitDetail.stopLoss data.futures_price signal.stop_loss))
      else if target_hit signal data then
        (pos, some (true, "Target Hit", ExitDetail.targetHit data.futures_price signal.target_price))
      else if 915 ≤ todMin then
        (pos, some (true, "Market Closing", ExitDetail.marketClosing))
      else if hold_time < MIN_HOLD_TIME_MINUTES then
        (pos, none)
      else
        let oiStep : Position × Option (Bool × String × ExitDetail) :=
          if MIN_HOLD_BEFORE_OI_EXIT ≤ hold_time then
            let hist := oi_hist_after pos data
            let pos3 := { pos with oi_history := hist }
            let signal_type_str := if signal.signal_type = SignalType.CE_BUY then "CE" else "PE"
            let r := OIAnalyzer.check_oi_reversal signal_type_str hist EXIT_OI_REVERSAL_THRESHOLD
            if r.1 then
              (pos3, some (true, "OI Reversal", ExitDetail.oiReversal r.2.2.2 r.2.2.1))
            else (pos3, none)
          else (pos, none)
        match oiStep with
        | (posU, some r) => (posU, some r)
        | (pos, none) =>
          if ENABLE_TRAILING_SL && decide (current_premium < pos.trailing_sl) then
            let profit := current_premium - pos.entry_premium
            let profit_pct := if 0 < pos.entry_premium then profit / pos.entry_premium * 100 else 0
            (pos, some (true, "Trailing SL Hit", ExitDetail.trailingSlHit profit profit_pct))
          else
            let premium_drop_pct :=
              if 0 < pos.highest_premium then
                (pos.highest_premium - current_premium) / pos.highest_premium * 100
              else 0
            if EXIT_PREMIUM_DROP_PERCENT ≤ premium_drop_pct then
              (pos, some (true, "Premium Drop",
                ExitDetail.premiumDrop premium_drop_pct pos.highest_premium))
            else if 15 ≤ hold_time ∧ (data.volRat).getD 1.0 < EXIT_VOLUME_DRY_THRESHOLD then
              (pos, some (true, "Volume Dried", ExitDetail.volumeDried ((data.volRat).getD 1.0)))
            else if data.candle_data.rejection ∧
                signal.signal_type = SignalType.CE_BUY ∧
                data.candle_data.rejection_type = some "upper" then
              (pos, some (true, "Candle Rejection", ExitDetail.candleRejection "upper"))
            else if data.candle_data.rejection ∧
                signal.signal_type = SignalType.PE_BUY ∧
                data.candle_data.rejection_type = some "lower" then
              (pos, some (true, "Candle Rejection", ExitDetail.candleRejection "lower"))
            else
              (pos, none)

/-- Reason string of a `check_exit_conditions` result, when any. -/
def resultReason (r : Position × Option (Bool × String × ExitDetail)) : Option String :=
  (r.2).map (fun t => t.2.1)

/-- `should_exit` flag of a `check_exit_conditions` result, when any. -/
def resultFlag (r : Position × Option (Bool × String × ExitDetail)) : Option Bool :=
  (r.2).map (fun t => t.1)

end PositionTracker

/- ==================== concrete fixtures for the claims ==================== -/

/-- A green 10-point candle with no rejection wick. -/
def greenCandle : CandleData :=
  { color := some "GREEN", size := some 10, rejection := false, rejection_type := none }

/-- An empty `candle_data` dict. -/
def emptyCandle : CandleData :=
  { color := none, size := none, rejection := false, rejection_type := none }

/-- End-to-end entry scenario of the spec with the 5-minute aggregate OI
reading flat (0%) and the 15-minute reading at −5%: futures 10 points above
VWAP (within the 3×ATR buffer), qualifying ATM reading (−5% on 15m),
volume spike present. -/
def inpFlat5m : GenInputs :=
  { spot_price := 22000
    futures_price := 22000
    vwap := 21990
    vwap_distance := 10
    pcr := 1
    atr := 10
    atm_strike := 22000
    atm_data := { ce_ltp := some 150, pe_ltp := some 120 }
    ce_total_5m := 0
    pe_total_5m := 0
    ce_total_15m := -5
    pe_total_15m := 0
    atm_ce_5m := 0
    atm_pe_5m := 0
    atm_ce_15m := -5
    atm_pe_15m := 0
    has_5m_total := true
    has_15m_total := true
    has_5m_atm := true
    has_15m_atm := true
    volume_spike := true
    volRat := 2
    order_flow := 1
    candle_data := greenCandle
    gamma_zone := false
    momentum := { consecutive_green := 2, consecutive_red := 0 }
    multi_tf := false
    oi_strength := "weak" }

/-- The same scenario with the 5-minute aggregate reading also qualifying
(−3%), i.e. the fully qualifying CE_BUY entry scenario. -/
def inpQualifying : GenInputs := { inpFlat5m with ce_total_5m := -3 }

/-- An all-zero placeholder Signal (only used as an `Option.getD` default). -/
def dummySignal : Signal :=
  { signal_type := SignalType.CE_BUY
    timestamp := 0
    entry_price := 0
    target_price := 0
    stop_loss := 0
    atm_strike := 0
    recommended_strike := 0
    option_premium := 0
    premium_sl := 0
    vwap := 0
    vwap_distance := 0
    vwap_score := 0
    atr := 0
    oi_5m := 0
    oi_15m := 0
    oi_strength := "weak"
    atm_ce_change := 0
    atm_pe_change := 0
    pcr := 0
    volume_spike := false
    volRat := 0
    order_flow := 0
    confidence := 0
    primary_checks := 0
    bonus_checks := 0
    trailing_sl_enabled := false
    is_expiry_day := false
    analysis_details :=
      { primary := { unwinding := false, atm_unwinding := false, volume := false }
        vwap_reason := TechnicalAnalyzer.VwapReason.missingData
        bonus_count := 0 } }

/-- The signal produced by the generator on the qualifying scenario. -/
def sigQualifying : Signal := (SignalGenerator.generate 0 inpQualifying).getD dummySignal

/-- A CE_BUY signal as held by an open test position: entry 22000,
target 22100, stop 21900, ATM strike 22000, entry premium 100. -/
def ceTestSignal : Signal :=
  { signal_type := SignalType.CE_BUY
    timestamp := 0
    entry_price := 22000
    target_price := 22100
    stop_loss := 21900
    atm_strike := 22000
    recommended_strike := 22000
    option_premium := 100
    premium_sl := 70
    vwap := 21990
    vwap_distance := 10
    vwap_score := 86
    atr := 10
    oi_5m := -3
    oi_15m := -5
    oi_strength := "weak"
    atm_ce_change := -5
    atm_pe_change := 0
    pcr := 1
    volume_spike := true
    volRat := 2
    order_flow := 1
    confidence := 98
    primary_checks := 3
    bonus_checks := 3
    trailing_sl_enabled := true
    is_expiry_day := false
    analysis_details :=
      { primary := { unwinding := true, atm_unwinding := true, volume := true }
        vwap_reason := TechnicalAnalyzer.VwapReason.distanceOk 10
        bonus_count := 3 } }

/-- An active position on `ceTestSignal` opened at wall-clock 0, premium
high-water mark 100, trailing stop 60, one prior +5% OI sample recorded. -/
def posNoPeak : Position :=
  { signal := ceTestSignal
    entry_time := 0
    entry_premium := 100
    highest_premium := 100
    trailing_sl := 60
    is_active := true
    exit_time := none
    exit_reason := none
    exit_premium := none
    oi_history := [5] }

/-- Market data satisfying only the sustained-OI-reversal condition: futures
strictly between stop (21900) and target (22100), CE 5-minute OI change +5%
(second consecutive sample above the +3% reversal threshold), live CE
premium 90 (below the 100 high-water mark, so no trailing-stop update). -/
def dataOiOnly : CurrentData :=
  { futures_price := 22000
    ce_oi_5m := some 5
    pe_oi_5m := some 0
    volRat := some 1
    candle_data := emptyCandle
    atm_data := { ce_ltp := some 90, pe_ltp := none } }

/-- Market data satisfying the stop-loss condition (futures 21800 ≤ stop
21900) and the OI-reversal condition, with live premium 90 (no new peak). -/
def dataSlOi : CurrentData := { dataOiOnly with futures_price := 21800 }

/-- Market data satisfying the stop-loss condition and the OI-reversal
condition while the live premium 500 makes a new high-water mark whose
trailing-stop move (60 → 300, a 400% move) exceeds the 5% notification
threshold. -/
def dataPreempt : CurrentData :=
  { futures_price := 21800
    ce_oi_5m := some 5
    pe_oi_5m := some 0
    volRat := some 1
    candle_data := emptyCandle
    atm_data := { ce_ltp := some 500, pe_ltp := none } }

/-- A Brain with no snapshots. -/
def emptyBrain : Brain :=
  { memory := [], memoryTs := [], snapshot_count := 0, first_snapshot_time := none }

/-- A Brain holding exactly one aggregate snapshot, at minute 7 — three
minutes before the lookup target minute 10 used in the C3 counterexample. -/
def brainOffset3 : Brain :=
  { memory := [(BrainKey.total 7, BrainVal.total { ce := 100, pe := 100, timestampMinute := 7 })]
    memoryTs := [(BrainKey.total 7, 420)]
    snapshot_count := 1
    first_snapshot_time := some 7 }

/-- A Brain holding one aggregate snapshot with CE = PE = 3 at minute 0. -/
def brainBase3 : Brain :=
  { memory := [(BrainKey.total 0, BrainVal.total { ce := 3, pe := 3, timestampMinute := 0 })]
    memoryTs := [(BrainKey.total 0, 0)]
    snapshot_count := 1
    first_snapshot_time := some 0 }

/- ==================== helper lemmas ==================== -/

attribute [local semireducible] Rat.ofScientific Rat.mul Rat.inv Rat.add Rat.sub

lemma roundHalfEven_nonneg (q : ℚ) (h : 0 ≤ q) : 0 ≤ roundHalfEven q := by
  have hf : (0 : ℤ) ≤ ⌊q⌋ := Int.floor_nonneg.mpr h
  simp only [roundHalfEven]
  split_ifs <;> omega

lemma roundHalfEven_le_of_le (q : ℚ) (n : ℤ) (h : q ≤ n) : roundHalfEven q ≤ n := by
  have hf : ⌊q⌋ ≤ n := by
    have := Int.floor_le_floor h
    simpa using this
  have hfq : (⌊q⌋ : ℚ) ≤ q := Int.floor_le q
  simp only [roundHalfEven]
  split_ifs with h1 h2
  · exact hf
  · have hn : (⌊q⌋ : ℚ) < (n : ℚ) := by linarith
    have : ⌊q⌋ < n := by exact_mod_cast hn
    omega
  · exact hf
  · have h12 : q - ⌊q⌋ = 1/2 := le_antisymm (not_lt.mp h2) (not_lt.mp h1)
    have hn : (⌊q⌋ : ℚ) < (n : ℚ) := by linarith
    have : ⌊q⌋ < n := by exact_mod_cast hn
    omega

lemma pyRound2_bounds (q : ℚ) (h0 : 0 ≤ q) (h1 : q ≤ 10) :
    0 ≤ pyRound2 q ∧ pyRound2 q ≤ 10 := by
  unfold pyRound2
  constructor
  · apply div_nonneg _ (by norm_num)
    exact_mod_cast roundHalfEven_nonneg (q * 100) (by positivity)
  · rw [div_le_iff₀ (by norm_num : (0:ℚ) < 100)]
    have h2 := roundHalfEven_le_of_le (q * 100) 1000 (by push_cast; linarith)
    have : ((roundHalfEven (q * 100) : ℤ) : ℚ) ≤ ((1000 : ℤ) : ℚ) := by exact_mod_cast h2
    calc ((roundHalfEven (q * 100) : ℤ) : ℚ) ≤ ((1000 : ℤ) : ℚ) := this
      _ = 10 * 100 := by norm_num

/- ==================== claim theorems ==================== -/

/-- C7: for all non-negative put/call total OI inputs, `calculate_pcr` stays
in [0, 10]; it is exactly 1.0 when both are zero, exactly 10.0 when calls are
zero and puts nonzero, and otherwise `pe/ce` capped at 10.0 and rounded to two
decimals (the rounding step is the amendment over the raw `pe/ce` formula). -/
theorem c7_pcr_bounds (total_pe total_ce : ℚ) (hpe : 0 ≤ total_pe) (hce : 0 ≤ total_ce) :
    (0 ≤ OIAnalyzer.calculate_pcr total_pe total_ce ∧
      OIAnalyzer.calculate_pcr total_pe total_ce ≤ 10) ∧
    (total_ce = 0 → total_pe = 0 → OIAnalyzer.calculate_pcr total_pe total_ce = 1) ∧
    (total_ce = 0 → total_pe ≠ 0 → OIAnalyzer.calculate_pcr total_pe total_ce = 10) ∧
    (total_ce ≠ 0 →
      OIAnalyzer.calculate_pcr total_pe total_ce = pyRound2 (min (total_pe / total_ce) 10)) := by
  by_cases h : total_ce = 0
  · by_cases h2 : total_pe = 0
    · refine ⟨?_, fun _ _ => ?_, fun _ hne => absurd h2 hne, fun hne => absurd h hne⟩
      · simp only [OIAnalyzer.calculate_pcr, h, h2, if_true]
        norm_num
      · norm_num [OIAnalyzer.calculate_pcr, h, h2]
    · refine ⟨?_, fun _ hpe0 => absurd hpe0 h2, fun _ _ => ?_, fun hne => absurd h hne⟩
      · simp only [OIAnalyzer.calculate_pcr, h, h2, if_true, if_false]
        norm_num
      · norm_num [OIAnalyzer.calculate_pcr, h, h2]
  · have hmin0 : 0 ≤ min (total_pe / total_ce) 10 :=
      le_min (div_nonneg hpe hce) (by norm_num)
    have hmin10 : min (total_pe / total_ce) 10 ≤ 10 := min_le_right _ _
    have hb := pyRound2_bounds _ hmin0 hmin10
    have heq : OIAnalyzer.calculate_pcr total_pe total_ce =
        pyRound2 (min (total_pe / total_ce) 10) := by
      norm_num [OIAnalyzer.calculate_pcr, h]
    exact ⟨by rw [heq]; exact hb, fun hc _ => absurd hc h, fun hc _ => absurd hc h,
      fun _ => heq⟩

/-- Witness for C7 at `total_pe = 1`, `total_ce = 3` (result 0.33). -/
theorem c7_pcr_bounds_witness :
    (0 ≤ OIAnalyzer.calculate_pcr 1 3 ∧ OIAnalyzer.calculate_pcr 1 3 ≤ 10) ∧
    ((3:ℚ) = 0 → (1:ℚ) = 0 → OIAnalyzer.calculate_pcr 1 3 = 1) ∧
    ((3:ℚ) = 0 → (1:ℚ) ≠ 0 → OIAnalyzer.calculate_pcr 1 3 = 10) ∧
    ((3:ℚ) ≠ 0 → OIAnalyzer.calculate_pcr 1 3 = pyRound2 (min ((1:ℚ) / 3) 10)) :=
  c7_pcr_bounds 1 3 (by norm_num) (by norm_num)

/-- C7 counterexample to the claim as stated: at `pe = 1`, `ce = 3` the code
returns 0.33 (two-decimal rounding), not the claimed `pe/ce = 1/3`. -/
theorem c7_pcr_rounding_counterexample :
    OIAnalyzer.calculate_pcr 1 3 = 33/100 ∧ (33/100 : ℚ) ≠ 1/3 := by
  constructor
  · decide
  · decide

/-- C8: every OI-change history shorter than the confirmation-candle count
makes `check_oi_reversal` return `false` with reason "Insufficient data",
regardless of the values in the history. -/
theorem c8_insufficient_history (signal_type : String) (hist : List ℚ) (threshold : ℚ)
    (h : hist.length < EXIT_OI_CONFIRMATION_CANDLES) :
    OIAnalyzer.check_oi_reversal signal_type hist threshold =
      (false, "none", 0.0, OIAnalyzer.ReversalMsg.insufficientData) := by
  unfold OIAnalyzer.check_oi_reversal
  rw [if_pos h]

/-- Witness for C8: a one-sample history whose only value 9 exceeds the
immediate spike threshold 8 still yields "Insufficient data". -/
theorem c8_insufficient_history_witness :
    ([(9:ℚ)].length < EXIT_OI_CONFIRMATION_CANDLES ∧
      EXIT_OI_SPIKE_THRESHOLD < (9:ℚ)) ∧
    OIAnalyzer.check_oi_reversal "CE" [(9:ℚ)] EXIT_OI_REVERSAL_THRESHOLD =
      (false, "none", 0.0, OIAnalyzer.ReversalMsg.insufficientData) :=
  ⟨by decide, c8_insufficient_history "CE" [(9:ℚ)] EXIT_OI_REVERSAL_THRESHOLD (by decide)⟩

/-- C2 counterexample to the claim as stated: on the end-to-end scenario with
only the 15-minute aggregate reading qualifying (−5%) and the 5-minute reading
flat (0%), plus a qualifying ATM reading, a volume spike and futures 10 points
above VWAP, the generator DOES produce a CE_BUY candidate (the qualifying ATM
check and the volume spike already satisfy the 2-of-3 primary minimum). -/
theorem c2_flat5m_counterexample :
    inpFlat5m.ce_total_5m = 0 ∧ inpFlat5m.ce_total_15m = -5 ∧
    (SignalGenerator.generate 0 inpFlat5m).isSome = true ∧
    (SignalGenerator.generate 0 inpFlat5m).map Signal.signal_type = some SignalType.CE_BUY := by
  refine ⟨rfl, rfl, ?_, ?_⟩ <;> decide

/-- C2 amended: the 5m-AND-15m requirement is enforced only inside the
directional-OI check — with a flat 5-minute reading the unwinding detector
reports no CE unwinding and the generated candidate carries a false
directional-OI primary flag — but the candidate itself is still produced,
because the ATM reading and the volume spike meet the 2-of-3 primary-check
minimum. -/
theorem c2_and_logic_scope :
    (∀ ce15 pe5 pe15 : ℚ, (OIAnalyzer.detect_unwinding 0 ce15 pe5 pe15).ce_unwinding = false) ∧
    (SignalGenerator.generate 0 inpFlat5m).map
      (fun s => s.analysis_details.primary.unwinding) = some false ∧
    (SignalGenerator.generate 0 inpFlat5m).isSome = true := by
  refine ⟨?_, by decide, by decide⟩
  intro ce15 pe5 pe15
  simp only [OIAnalyzer.detect_unwinding]
  apply decide_eq_false
  rintro ⟨-, h⟩
  norm_num [MIN_OI_5M_FOR_ENTRY] at h

/- ==================== Snapshot Store lemmas and spec-side references ==================== -/

/-- Number of stored entries under one key. -/
def Brain.countKey (mem : List (BrainKey × BrainVal)) (k : BrainKey) : ℕ :=
  (mem.filter (fun p => p.1 = k)).length

/-- The tolerance offsets the amended claim describes: the exact minute first,
then −1, +1, −2, +2 (the ±3 offsets of the original claim are not searched). -/
def spec_tolerance_offsets : List ℤ := [0, -1, 1, -2, 2]

/-- Reference lookup following the amended claim's words: the first offset in
`spec_tolerance_offsets` whose aggregate minute key holds a snapshot. -/
def spec_total_lookup (st : Brain) (target : ℤ) : Option BrainVal :=
  spec_tolerance_offsets.findSome? (fun o =>
    Brain.findKey st.memory (BrainKey.total (target + o)))

/-- Reference lookup following the amended claim's words, per-strike form. -/
def spec_strike_lookup (st : Brain) (strikePrice target : ℤ) : Option BrainVal :=
  spec_tolerance_offsets.findSome? (fun o =>
    Brain.findKey st.memory (BrainKey.strike strikePrice (target + o)))

/-- Reference aggregate-change function following the amended claim's words:
tolerant lookup, `(0, 0, false)` on a miss, percentage formula on a hit. -/
def spec_total_change (st : Brain) (nowSec : ℚ) (current_ce current_pe : ℚ)
    (minutes_ago : ℤ) : ℚ × ℚ × Bool :=
  match spec_total_lookup st (⌊nowSec / 60⌋ - minutes_ago) with
  | none => (0.0, 0.0, false)
  | some past =>
      let past_ce := Brain.valCe past
      let past_pe := Brain.valPe past
      let ce_chg := if past_ce = 0 then (if 0 < current_ce then 100.0 else 0.0)
        else ((current_ce - past_ce) / past_ce * 100)
      let pe_chg := if past_pe = 0 then (if 0 < current_pe then 100.0 else 0.0)
        else ((current_pe - past_pe) / past_pe * 100)
      (pyRound1 ce_chg, pyRound1 pe_chg, true)

/-- Reference per-strike change function following the amended claim's words. -/
def spec_strike_change (st : Brain) (nowSec : ℚ) (strikePrice : ℤ)
    (curr_ce_oi curr_pe_oi : ℚ) (minutes_ago : ℤ) : ℚ × ℚ × Bool :=
  match spec_strike_lookup st strikePrice (⌊nowSec / 60⌋ - minutes_ago) with
  | none => (0.0, 0.0, false)
  | some past =>
      let ce_past := Brain.valCeOi past
      let pe_past := Brain.valPeOi past
      let ce_chg := if ce_past = 0 then (if 0 < curr_ce_oi then 100.0 else 0.0)
        else ((curr_ce_oi - ce_past) / ce_past * 100)
      let pe_chg := if pe_past = 0 then (if 0 < curr_pe_oi then 100.0 else 0.0)
        else ((curr_pe_oi - pe_past) / pe_past * 100)
      (pyRound1 ce_chg, pyRound1 pe_chg, true)

lemma total_past_eq_spec (st : Brain) (nowSec : ℚ) (m : ℤ) :
    Brain.total_past st nowSec m = spec_total_lookup st (⌊nowSec / 60⌋ - m) := by
  unfold Brain.total_past spec_total_lookup spec_tolerance_offsets
  cases h : Brain.findKey st.memory (BrainKey.total (⌊nowSec / 60⌋ - m)) with
  | some v => simp [List.findSome?_cons, add_zero, h]
  | none => simp [List.findSome?_cons, add_zero, h]

lemma strike_past_eq_spec (st : Brain) (nowSec : ℚ) (sp m : ℤ) :
    Brain.strike_past st nowSec sp m = spec_strike_lookup st sp (⌊nowSec / 60⌋ - m) := by
  unfold Brain.strike_past spec_strike_lookup spec_tolerance_offsets
  cases h : Brain.findKey st.memory (BrainKey.strike sp (⌊nowSec / 60⌋ - m)) with
  | some v => simp [List.findSome?_cons, add_zero, h]
  | none => simp [List.findSome?_cons, add_zero, h]

/-- C3 amended: both change lookups behave exactly as the tolerance search
over offsets 0, −1, +1, −2, +2 (first hit wins, miss reported as
`(0.0, 0.0, false)`) — the original claim's ±3 offsets are never searched. -/
theorem c3_tolerance_refinement (st : Brain) (nowSec : ℚ) (current_ce current_pe : ℚ)
    (strikePrice : ℤ) (curr_ce_oi curr_pe_oi : ℚ) (minutes_ago : ℤ) :
    Brain.get_total_oi_change st nowSec current_ce current_pe minutes_ago =
      spec_total_change st nowSec current_ce current_pe minutes_ago ∧
    Brain.get_strike_oi_change st nowSec strikePrice curr_ce_oi curr_pe_oi minutes_ago =
      spec_strike_change st nowSec strikePrice curr_ce_oi curr_pe_oi minutes_ago := by
  constructor
  · unfold Brain.get_total_oi_change spec_total_change
    rw [total_past_eq_spec]
  · unfold Brain.get_strike_oi_change spec_strike_change
    rw [strike_past_eq_spec]

/-- C3 counterexample to the claim as stated: a store holding a snapshot only
at minute 7 — exactly 3 minutes before the lookup target minute 10 — still
reports `(0.0, 0.0, false)`: the ±3 offsets are not searched. -/
theorem c3_no_offset3_counterexample :
    Brain.get_total_oi_change brainOffset3 1500 100 100 15 = (0.0, 0.0, false) ∧
    Brain.findKey brainOffset3.memory (BrainKey.total ((⌊(1500:ℚ) / 60⌋ - 15) - 3)) =
      some (BrainVal.total { ce := 100, pe := 100, timestampMinute := 7 }) := by
  constructor <;> decide

/-- Percentage-change formula in the words of the claim: baseline zero and
current zero → 0; baseline zero, current nonzero → capped sentinel 100;
otherwise `(current − baseline) / baseline × 100`. -/
def pct_change_spec (current baseline : ℚ) : ℚ :=
  if baseline = 0 then (if current ≠ 0 then 100 else 0)
  else (current - baseline) / baseline * 100

lemma pct_change_code_eq_spec (cur base : ℚ) (hcur : 0 ≤ cur) :
    (if base = 0 then (if 0 < cur then (100.0 : ℚ) else 0.0)
      else (cur - base) / base * 100) = pct_change_spec cur base := by
  unfold pct_change_spec
  by_cases hb : base = 0
  · by_cases hc : cur = 0
    · simp [hb, hc]
      norm_num
    · have : 0 < cur := lt_of_le_of_ne hcur (Ne.symm hc)
      simp [hb, hc, this]
      norm_num
  · simp [hb]

/-- C6 amended: whenever the aggregate lookup finds a baseline snapshot, the
reported change is the claim's percentage formula (0 when both zero, sentinel
100 for new OI, else `(current − baseline)/baseline × 100`) applied to the CE
and PE components — each rounded to one decimal (banker's rounding), the
rounding being the amendment. -/
theorem c6_change_formula (st : Brain) (nowSec : ℚ) (current_ce current_pe : ℚ)
    (minutes_ago : ℤ) (snap : TotalSnap)
    (hce : 0 ≤ current_ce) (hpe : 0 ≤ current_pe)
    (hfound : Brain.total_past st nowSec minutes_ago = some (BrainVal.total snap)) :
    Brain.get_total_oi_change st nowSec current_ce current_pe minutes_ago =
      (pyRound1 (pct_change_spec current_ce snap.ce),
        pyRound1 (pct_change_spec current_pe snap.pe), true) := by
  unfold Brain.get_total_oi_change
  rw [hfound]
  simp only [Brain.valCe, Brain.valPe]
  rw [pct_change_code_eq_spec current_ce snap.ce hce,
    pct_change_code_eq_spec current_pe snap.pe hpe]

/-- Witness for C6 on `brainBase3` (baseline CE = PE = 3 at minute 0, lookup
at minute 15 with lookback 15, current CE 4 and PE 3). -/
theorem c6_change_formula_witness :
    Brain.get_total_oi_change brainBase3 900 4 3 15 =
      (pyRound1 (pct_change_spec 4 3), pyRound1 (pct_change_spec 3 3), true) :=
  c6_change_formula brainBase3 900 4 3 15 { ce := 3, pe := 3, timestampMinute := 0 }
    (by norm_num) (by norm_num) (by decide)

/-- C6 counterexample to the claim as stated: with baseline 3 and current 4
the code reports 33.3 (one-decimal rounding), not the claimed
`(4 − 3)/3 × 100 = 100/3`. -/
theorem c6_rounding_counterexample :
    Brain.get_total_oi_change brainBase3 900 4 3 15 = (333/10, 0, true) ∧
    (333/10 : ℚ) ≠ (4 - 3) / 3 * 100 := by
  constructor <;> decide

lemma filter_erased_key_eq_nil (mem : List (BrainKey × BrainVal)) (k : BrainKey)
    (pred : BrainKey × BrainVal → Bool) :
    (((mem.filter (fun p => ¬ p.1 = k)).filter pred).filter (fun p => p.1 = k)) = [] := by
  induction mem with
  | nil => rfl
  | cons a l ih =>
    by_cases h : a.1 = k
    · simp only [List.filter_cons, h]
      simpa using ih
    · simp only [List.filter_cons, h]
      by_cases hp : pred a
      · simpa [List.filter_cons, hp, h] using ih
      · simpa [hp] using ih

lemma countKey_insert_filter (mem : List (BrainKey × BrainVal)) (k : BrainKey) (v : BrainVal)
    (pred : BrainKey × BrainVal → Bool) (hpred : pred (k, v) = true) :
    Brain.countKey ((Brain.insertKey mem k v).filter pred) k = 1 := by
  unfold Brain.countKey Brain.insertKey
  rw [List.filter_cons, if_pos hpred]
  simp [List.filter_cons, filter_erased_key_eq_nil mem k pred]
  intro a b _ h _
  exact h

lemma findKey_insert_filter (mem : List (BrainKey × BrainVal)) (k : BrainKey) (v : BrainVal)
    (pred : BrainKey × BrainVal → Bool) (hpred : pred (k, v) = true) :
    Brain.findKey ((Brain.insertKey mem k v).filter pred) k = some v := by
  unfold Brain.findKey Brain.insertKey
  rw [List.filter_cons, if_pos hpred]
  rw [List.find?_cons_of_pos _ (by simp)]
  rfl

lemma fresh_key_not_expired (ts : List (BrainKey × ℚ)) (k : BrainKey) (t : ℚ) :
    ¬ k ∈ ((Brain.insertTs ts k t).filter
      (fun p => MEMORY_TTL_SECONDS < t - p.2)).map Prod.fst := by
  intro hk
  rcases List.mem_map.mp hk with ⟨p, hp, hpk⟩
  rcases List.mem_filter.mp hp with ⟨hpT, hexp⟩
  unfold Brain.insertTs at hpT
  rcases List.mem_cons.mp hpT with h | h
  · subst h
    simp only [decide_eq_true_eq] at hexp
    norm_num [MEMORY_TTL_SECONDS] at hexp
  · have h2 := (List.mem_filter.mp h).2
    simp only [decide_eq_true_eq] at h2
    exact h2 hpk

lemma save_total_oi_overwrites (st : Brain) (t ce pe : ℚ) :
    Brain.countKey (Brain.save_total_oi st t ce pe).memory (BrainKey.total ⌊t / 60⌋) = 1 ∧
    Brain.findKey (Brain.save_total_oi st t ce pe).memory (BrainKey.total ⌊t / 60⌋) =
      some (BrainVal.total { ce := ce, pe := pe, timestampMinute := ⌊t / 60⌋ }) := by
  unfold Brain.save_total_oi
  dsimp only
  split_ifs with hc <;>
  · unfold Brain.cleanup
    dsimp only
    refine ⟨countKey_insert_filter _ _ _ _ ?_, findKey_insert_filter _ _ _ _ ?_⟩ <;>
      exact decide_eq_true (fresh_key_not_expired st.memoryTs (BrainKey.total ⌊t / 60⌋) t)

/-- C9: recording two aggregate snapshots within the same minute bucket leaves
exactly one stored entry for that minute, holding the later snapshot's values
(the later overwrites the earlier). -/
theorem c9_same_minute_overwrite (st : Brain) (t1 t2 ce1 pe1 ce2 pe2 : ℚ)
    (hmin : ⌊t1 / 60⌋ = ⌊t2 / 60⌋) :
    BrainKey.total ⌊t1 / 60⌋ = BrainKey.total ⌊t2 / 60⌋ ∧
    Brain.countKey (Brain.save_total_oi (Brain.save_total_oi st t1 ce1 pe1) t2 ce2 pe2).memory
      (BrainKey.total ⌊t2 / 60⌋) = 1 ∧
    Brain.findKey (Brain.save_total_oi (Brain.save_total_oi st t1 ce1 pe1) t2 ce2 pe2).memory
      (BrainKey.total ⌊t2 / 60⌋) =
        some (BrainVal.total { ce := ce2, pe := pe2, timestampMinute := ⌊t2 / 60⌋ }) := by
  refine ⟨by rw [hmin], ?_, ?_⟩
  · exact (save_total_oi_overwrites (Brain.save_total_oi st t1 ce1 pe1) t2 ce2 pe2).1
  · exact (save_total_oi_overwrites (Brain.save_total_oi st t1 ce1 pe1) t2 ce2 pe2).2

/-- Witness for C9: two snapshots recorded at wall-clock seconds 120 and 150
(both minute 2) on an empty store. -/
theorem c9_same_minute_overwrite_witness :
    BrainKey.total ⌊(120:ℚ) / 60⌋ = BrainKey.total ⌊(150:ℚ) / 60⌋ ∧
    Brain.countKey (Brain.save_total_oi (Brain.save_total_oi emptyBrain 120 1 2) 150 3 4).memory
      (BrainKey.total ⌊(150:ℚ) / 60⌋) = 1 ∧
    Brain.findKey (Brain.save_total_oi (Brain.save_total_oi emptyBrain 120 1 2) 150 3 4).memory
      (BrainKey.total ⌊(150:ℚ) / 60⌋) =
        some (BrainVal.total { ce := 3, pe := 4, timestampMinute := ⌊(150:ℚ) / 60⌋ }) :=
  c9_same_minute_overwrite emptyBrain 120 150 1 2 3 4 (by decide)
/-- C1 amended: on market data satisfying both the stop-loss condition and the
sustained OI-reversal condition, `check_exit_conditions` never reports
"OI Reversal"; it reports the exit "Stop Loss Hit" unless the trailing-stop
update notification preempts the cycle with the non-exit `SL_UPDATED` result
(the preemption being the amendment). -/
theorem c1_stop_loss_over_oi (pos : Position) (data : CurrentData) (nowSec todMin : ℚ)
    (hact : pos.is_active = true)
    (hsl : PositionTracker.stop_loss_hit pos.signal data = true)
    (hoi : PositionTracker.oi_reversal_cond pos data = true) :
    PositionTracker.resultReason
      (PositionTracker.check_exit_conditions pos data nowSec todMin) ≠ some "OI Reversal" ∧
    (PositionTracker.sl_update_fires pos data = false →
      PositionTracker.resultReason
        (PositionTracker.check_exit_conditions pos data nowSec todMin) = some "Stop Loss Hit") := by
  unfold PositionTracker.check_exit_conditions
  rw [if_neg (by simp [hact])]
  dsimp only
  by_cases h1 : pos.highest_premium < PositionTracker.estimate_premium data pos.signal
  · rw [if_pos h1]
    simp only [ENABLE_TRAILING_SL]
    rw [if_pos trivial]
    by_cases h2 : TRAILING_SL_UPDATE_THRESHOLD ≤
        (if 0 < pos.trailing_sl then
          |PositionTracker.estimate_premium data pos.signal * (1 - TRAILING_SL_DISTANCE) -
            pos.trailing_sl| / pos.trailing_sl * 100 else 0)
    · rw [if_pos h2]
      refine ⟨by simp [PositionTracker.resultReason], fun hfail => absurd hfail ?_⟩
      unfold PositionTracker.sl_update_fires
      simp [h1, h2, ENABLE_TRAILING_SL]
    · rw [if_neg h2]
      dsimp only
      rw [if_pos hsl]
      exact ⟨by simp [PositionTracker.resultReason], fun _ => rfl⟩
  · rw [if_neg h1]
    dsimp only
    rw [if_pos hsl]
    exact ⟨by simp [PositionTracker.resultReason], fun _ => rfl⟩

/-- C4 amended: (a) any exit decision at an elapsed hold time below the
10-minute general minimum is never an OI-reversal exit; (b) with the identical
position and data, once the general minimum has elapsed and no higher-priority
exit or trailing-stop update fires, a satisfied sustained-OI-reversal
condition does produce the "OI Reversal" exit; (c) the OI-specific second hold
gate (8 minutes) is SHORTER than the general minimum (10 minutes) — not
longer as claimed — so it never extends the gate. -/
theorem c4_min_hold_gates_oi_exit :
    (∀ (pos : Position) (data : CurrentData) (nowSec todMin : ℚ),
      (nowSec - pos.entry_time) / 60 < MIN_HOLD_TIME_MINUTES →
      PositionTracker.resultReason
        (PositionTracker.check_exit_conditions pos data nowSec todMin) ≠ some "OI Reversal") ∧
    (∀ (pos : Position) (data : CurrentData) (nowSec todMin : ℚ),
      pos.is_active = true →
      PositionTracker.sl_update_fires pos data = false →
      PositionTracker.stop_loss_hit pos.signal data = false →
      PositionTracker.target_hit pos.signal data = false →
      todMin < 915 →
      MIN_HOLD_TIME_MINUTES ≤ (nowSec - pos.entry_time) / 60 →
      PositionTracker.oi_reversal_cond pos data = true →
      PositionTracker.resultReason
        (PositionTracker.check_exit_conditions pos data nowSec todMin) = some "OI Reversal") ∧
    MIN_HOLD_BEFORE_OI_EXIT < MIN_HOLD_TIME_MINUTES := by
  refine ⟨?_, ?_, by norm_num [MIN_HOLD_BEFORE_OI_EXIT, MIN_HOLD_TIME_MINUTES]⟩
  · intro pos data nowSec todMin h
    unfold PositionTracker.check_exit_conditions
    by_cases hact : pos.is_active = true
    · rw [if_neg (by simp [hact])]
      dsimp only
      by_cases h1 : pos.highest_premium < PositionTracker.estimate_premium data pos.signal
      · rw [if_pos h1]
        simp only [ENABLE_TRAILING_SL]
        rw [if_pos trivial]
        by_cases h2 : TRAILING_SL_UPDATE_THRESHOLD ≤
            (if 0 < pos.trailing_sl then
              |PositionTracker.estimate_premium data pos.signal * (1 - TRAILING_SL_DISTANCE) -
                pos.trailing_sl| / pos.trailing_sl * 100 else 0)
        · rw [if_pos h2]
          simp [PositionTracker.resultReason]
        · rw [if_neg h2]
          dsimp only
          by_cases hsl : PositionTracker.stop_loss_hit pos.signal data = true
          · rw [if_pos hsl]; simp [PositionTracker.resultReason]
          · rw [if_neg hsl]
            by_cases htg : PositionTracker.target_hit pos.signal data = true
            · rw [if_pos htg]; simp [PositionTracker.resultReason]
            · rw [if_neg htg]
              by_cases hmc : (915:ℚ) ≤ todMin
              · rw [if_pos hmc]; simp [PositionTracker.resultReason]
              · rw [if_neg hmc, if_pos h]; simp [PositionTracker.resultReason]
      · rw [if_neg h1]
        dsimp only
        by_cases hsl : PositionTracker.stop_loss_hit pos.signal data = true
        · rw [if_pos hsl]; simp [PositionTracker.resultReason]
        · rw [if_neg hsl]
          by_cases htg : PositionTracker.target_hit pos.signal data = true
          · rw [if_pos htg]; simp [PositionTracker.resultReason]
          · rw [if_neg htg]
            by_cases hmc : (915:ℚ) ≤ todMin
            · rw [if_pos hmc]; simp [PositionTracker.resultReason]
            · rw [if_neg hmc, if_pos h]; simp [PositionTracker.resultReason]
    · rw [if_pos (by simp [hact])]
      simp [PositionTracker.resultReason]
  · intro pos data nowSec todMin hact hupd hsl htg hmc hhold hrev
    have h8 : MIN_HOLD_BEFORE_OI_EXIT ≤ (nowSec - pos.entry_time) / 60 :=
      le_trans (by norm_num [MIN_HOLD_BEFORE_OI_EXIT, MIN_HOLD_TIME_MINUTES]) hhold
    unfold PositionTracker.oi_reversal_cond at hrev
    unfold PositionTracker.check_exit_conditions
    rw [if_neg (by simp [hact])]
    dsimp only
    by_cases h1 : pos.highest_premium < PositionTracker.estimate_premium data pos.signal
    · rw [if_pos h1]
      simp only [ENABLE_TRAILING_SL]
      rw [if_pos trivial]
      have h2 : ¬ TRAILING_SL_UPDATE_THRESHOLD ≤
          (if 0 < pos.trailing_sl then
            |PositionTracker.estimate_premium data pos.signal * (1 - TRAILING_SL_DISTANCE) -
              pos.trailing_sl| / pos.trailing_sl * 100 else 0) := by
        intro h2
        unfold PositionTracker.sl_update_fires at hupd
        simp [h1, h2, ENABLE_TRAILING_SL] at hupd
      rw [if_neg h2]
      dsimp only
      rw [if_neg (by simp [hsl]), if_neg (by simp [htg]), if_neg (not_le.mpr hmc),
        if_neg (not_lt.mpr hhold), if_pos h8]
      simp only [PositionTracker.oi_hist_after, PositionTracker.oi_sample] at hrev ⊢
      rw [if_pos hrev]
      rfl
    · rw [if_neg h1]
      dsimp only
      rw [if_neg (by simp [hsl]), if_neg (by simp [htg]), if_neg (not_le.mpr hmc),
        if_neg (not_lt.mpr hhold), if_pos h8]
      simp only [PositionTracker.oi_hist_after, PositionTracker.oi_sample] at hrev ⊢
      rw [if_pos hrev]
      rfl
/-- C10: whenever the estimated premium makes a new high-water mark with
trailing stops enabled and the implied stop move is at least the notification
threshold, `check_exit_conditions` returns the non-exit
`(False, "SL_UPDATED", ...)` notification and evaluates no exit condition that
cycle — even if the stop-loss or target condition also holds. -/
theorem c10_sl_update_preempts (pos : Position) (data : CurrentData) (nowSec todMin : ℚ)
    (hact : pos.is_active = true)
    (hfires : PositionTracker.sl_update_fires pos data = true) :
    PositionTracker.resultFlag
      (PositionTracker.check_exit_conditions pos data nowSec todMin) = some false ∧
    PositionTracker.resultReason
      (PositionTracker.check_exit_conditions pos data nowSec todMin) = some "SL_UPDATED" := by
  unfold PositionTracker.sl_update_fires at hfires
  simp only [Bool.and_eq_true, decide_eq_true_eq] at hfires
  obtain ⟨⟨h1, -⟩, h2⟩ := hfires
  unfold PositionTracker.check_exit_conditions
  rw [if_neg (by simp [hact])]
  dsimp only
  rw [if_pos h1]
  simp only [ENABLE_TRAILING_SL]
  rw [if_pos trivial, if_pos h2]
  exact ⟨rfl, rfl⟩

/-- C1 counterexample to the claim as stated: on `posNoPeak` with market data
satisfying the stop-loss condition AND the sustained OI-reversal condition,
a simultaneous premium high-water mark (90 → 500) makes the function return
the non-exit `(False, "SL_UPDATED", ...)` instead of the claimed
"Stop Loss Hit" exit. -/
theorem c1_preempt_counterexample :
    PositionTracker.stop_loss_hit posNoPeak.signal dataPreempt = true ∧
    PositionTracker.oi_reversal_cond posNoPeak dataPreempt = true ∧
    PositionTracker.resultFlag
      (PositionTracker.check_exit_conditions posNoPeak dataPreempt 601 600) = some false ∧
    PositionTracker.resultReason
      (PositionTracker.check_exit_conditions posNoPeak dataPreempt 601 600) =
        some "SL_UPDATED" := by
  refine ⟨?_, ?_, ?_, ?_⟩ <;> decide

/-- Witness for C1 on `posNoPeak` with `dataSlOi` (stop-loss and OI-reversal
both satisfied, no trailing-stop update): the exit is "Stop Loss Hit". -/
theorem c1_stop_loss_over_oi_witness :
    PositionTracker.resultReason
      (PositionTracker.check_exit_conditions posNoPeak dataSlOi 601 600) ≠ some "OI Reversal" ∧
    PositionTracker.resultReason
      (PositionTracker.check_exit_conditions posNoPeak dataSlOi 601 600) =
        some "Stop Loss Hit" := by
  have h := c1_stop_loss_over_oi posNoPeak dataSlOi 601 600 (by decide) (by decide) (by decide)
  exact ⟨h.1, h.2 (by decide)⟩

/-- C4 counterexample to the claim as stated: the OI-exit-specific minimum
hold time (8 minutes) is SHORTER than the general minimum (10 minutes), not
longer as the claim asserts. -/
theorem c4_oi_gate_not_longer_counterexample :
    ¬ MIN_HOLD_TIME_MINUTES < MIN_HOLD_BEFORE_OI_EXIT ∧
    MIN_HOLD_BEFORE_OI_EXIT < MIN_HOLD_TIME_MINUTES := by
  norm_num [MIN_HOLD_BEFORE_OI_EXIT, MIN_HOLD_TIME_MINUTES]

/-- Witness for C4 on `posNoPeak` with `dataOiOnly`: the identical data is
blocked at 599 s of hold (9.98 min < 10 min) and triggers the "OI Reversal"
exit at 601 s (one second past the 10-minute minimum). -/
theorem c4_min_hold_gates_oi_exit_witness :
    PositionTracker.resultReason
      (PositionTracker.check_exit_conditions posNoPeak dataOiOnly 599 600) ≠ some "OI Reversal" ∧
    PositionTracker.resultReason
      (PositionTracker.check_exit_conditions posNoPeak dataOiOnly 601 600) =
        some "OI Reversal" :=
  ⟨c4_min_hold_gates_oi_exit.1 posNoPeak dataOiOnly 599 600 (by decide),
    c4_min_hold_gates_oi_exit.2.1 posNoPeak dataOiOnly 601 600 (by decide) (by decide)
      (by decide) (by decide) (by decide) (by decide) (by decide)⟩

/-- Witness for C10 on `posNoPeak` with `dataPreempt`: the premium jump 90 →
500 moves the trailing stop 60 → 300 (≥ 5% move) and the cycle returns the
non-exit `SL_UPDATED` notification although the stop-loss condition holds. -/
theorem c10_sl_update_preempts_witness :
    PositionTracker.resultFlag
      (PositionTracker.check_exit_conditions posNoPeak dataPreempt 300 600) = some false ∧
    PositionTracker.resultReason
      (PositionTracker.check_exit_conditions posNoPeak dataPreempt 300 600) =
        some "SL_UPDATED" :=
  c10_sl_update_preempts posNoPeak dataPreempt 300 600 (by decide) (by decide)

set_option maxHeartbeats 1600000 in
lemma check_ce_buy_confidence (now : ℚ) (i : GenInputs) (s : Signal)
    (h : SignalGenerator.check_ce_buy now i = some s) :
    40 ≤ s.confidence ∧ MIN_CONFIDENCE ≤ s.confidence ∧ s.confidence ≤ 98 := by
  unfold SignalGenerator.check_ce_buy at h
  dsimp only at h
  split_ifs at h <;>
    first
      | exact Option.noConfusion h
      | (rw [Option.some.injEq] at h; subst h; rename_i hconf hgamma huse;
         exact ⟨le_trans (by norm_num [MIN_CONFIDENCE]) (not_lt.mp hconf),
           not_lt.mp hconf, min_le_right _ _⟩)

set_option maxHeartbeats 1600000 in
lemma check_pe_buy_confidence (now : ℚ) (i : GenInputs) (s : Signal)
    (h : SignalGenerator.check_pe_buy now i = some s) :
    40 ≤ s.confidence ∧ MIN_CONFIDENCE ≤ s.confidence ∧ s.confidence ≤ 98 := by
  unfold SignalGenerator.check_pe_buy at h
  dsimp only at h
  split_ifs at h <;>
    first
      | exact Option.noConfusion h
      | (rw [Option.some.injEq] at h; subst h; rename_i hconf hgamma huse;
         exact ⟨le_trans (by norm_num [MIN_CONFIDENCE]) (not_lt.mp hconf),
           not_lt.mp hconf, min_le_right _ _⟩)

/-- C5: every signal the generator emits, in either direction, carries a
confidence that sits at or above the base 40, at or above the configured
minimum (70, below which the candidate is discarded and nothing returned),
and clamped to at most 98. -/
theorem c5_confidence_bounds (now : ℚ) (i : GenInputs) (s : Signal)
    (h : SignalGenerator.generate now i = some s) :
    40 ≤ s.confidence ∧ MIN_CONFIDENCE ≤ s.confidence ∧ s.confidence ≤ 98 := by
  unfold SignalGenerator.generate at h
  cases hce : SignalGenerator.check_ce_buy now i with
  | some t =>
    rw [hce] at h
    dsimp only at h
    rw [Option.some.injEq] at h
    subst h
    exact check_ce_buy_confidence now i t hce
  | none =>
    rw [hce] at h
    dsimp only at h
    exact check_pe_buy_confidence now i s h

/-- Witness for C5: the qualifying CE_BUY scenario yields a signal whose
confidence (98 after clamping) respects all three bounds. -/
theorem c5_confidence_bounds_witness :
    40 ≤ sigQualifying.confidence ∧ MIN_CONFIDENCE ≤ sigQualifying.confidence ∧
      sigQualifying.confidence ≤ 98 :=
  c5_confidence_bounds 0 inpQualifying sigQualifying (by decide)
